import Mathlib

/-!
# Verification of the file-upload subsystem of `notionapi` (`file_upload.go`)

Shallow embedding of `FileUploadClient` (Create, Send, SendFileByPath) and of
the multipart body it builds via Go's `mime/multipart` writer.

Modelling conventions:
* Go errors are the inductive `GoError`: `fmt.Errorf("...: %w", err)` becomes
  `GoError.wrapped msg err`, `fmt.Errorf` without `%w` becomes `GoError.message`,
  and errors produced by collaborators (transport, io, json) are `GoError.external`.
* The black-box transport `apiClient.request` is a function parameter from the
  request arguments to `Except GoError HttpResponse`; each operation additionally
  returns the list of transport invocations it made, in order, so that "without
  making a network call" is expressible.
* The `io.Reader` argument of Send is modelled as `Except GoError (List Nat)`:
  either the full byte content the reader yields, or the read error that makes
  `io.Copy` fail.  Writes into the local `bytes.Buffer` never fail in Go
  (`bytes.Buffer.Write` has no error result), so `CreateFormFile`, `WriteField`
  and `writer.Close` cannot fail in `Send`'s straight-line use and the copy step
  is the only fallible part of body construction.
* The multipart boundary is chosen randomly by `multipart.NewWriter`; it is an
  explicit parameter `boundary` of `Send`.
* JSON decoding of a response body into `FileUpload` is abstracted as the field
  `HttpResponse.bodyDecode`, the outcome of `json.NewDecoder(res.Body).Decode`.
-/

/-- `FileUploadID` (file_upload.go line 18): string identifier for an upload. -/
abbrev FileUploadID := String

/-- `FileUploadMode` (file_upload.go line 25): a string-typed enumeration. -/
abbrev FileUploadMode := String

/-- `FileUploadModeSinglePart = "single_part"` (file_upload.go line 29). -/
def FileUploadModeSinglePart : FileUploadMode := "single_part"

/-- `FileUploadModeMultiPart = "multi_part"` (file_upload.go line 31). -/
def FileUploadModeMultiPart : FileUploadMode := "multi_part"

/-- `FileUploadModeExternalURL = "external_url"` (file_upload.go line 33). -/
def FileUploadModeExternalURL : FileUploadMode := "external_url"

/-- `FileUploadStatus` (file_upload.go line 37): a string-typed enumeration. -/
abbrev FileUploadStatus := String

/-- `FileUploadStatusPending = "pending"` (file_upload.go line 41). -/
def FileUploadStatusPending : FileUploadStatus := "pending"

/-- `FileUploadStatusUploaded = "uploaded"` (file_upload.go line 43). -/
def FileUploadStatusUploaded : FileUploadStatus := "uploaded"

/-- `FileUploadStatusExpired = "expired"` (file_upload.go line 45). -/
def FileUploadStatusExpired : FileUploadStatus := "expired"

/-- `FileUploadStatusFailed = "failed"` (file_upload.go line 47). -/
def FileUploadStatusFailed : FileUploadStatus := "failed"

/-- Go `error` values as this client produces and consumes them:
`external` is an error coming from a collaborator (transport, io, json),
`message` is `fmt.Errorf` without `%w`, and `wrapped` is
`fmt.Errorf("<msg>: %w", cause)`. -/
inductive GoError : Type where
  | external (msg : String)
  | message (msg : String)
  | wrapped (msg : String) (cause : GoError)
deriving DecidableEq, Repr

instance {ε α : Type} [DecidableEq ε] [DecidableEq α] : DecidableEq (Except ε α) := fun x y =>
  match x, y with
  | .error e, .error f =>
    if h : e = f then .isTrue (congrArg Except.error h)
    else .isFalse (fun hc => h (Except.error.inj hc))
  | .error _, .ok _ => .isFalse (fun hc => Except.noConfusion hc)
  | .ok _, .error _ => .isFalse (fun hc => Except.noConfusion hc)
  | .ok a, .ok b =>
    if h : a = b then .isTrue (congrArg Except.ok h)
    else .isFalse (fun hc => h (Except.ok.inj hc))

/-- `FileUploadCreateRequest` (file_upload.go lines 75-87).  Defaults are the Go
zero values.  `NumberOfParts` is `*int32`, modelled as `Option Int`. -/
structure FileUploadCreateRequest : Type where
  Mode : FileUploadMode := ""
  Filename : String := ""
  ContentType : String := ""
  NumberOfParts : Option Int := none
  ExternalURL : String := ""
deriving DecidableEq, Repr

/-- `FileUpload` (file_upload.go lines 173-198).  `time.Time` fields are kept as
their RFC 3339 wire strings; nullable fields are `Option`. -/
structure FileUpload : Type where
  Object : String := ""
  ID : FileUploadID := ""
  CreatedTime : String := ""
  LastEditedTime : String := ""
  ExpiryTime : Option String := none
  Status : FileUploadStatus := ""
  Filename : String := ""
  ContentType : String := ""
  ContentLength : Option Int := none
  UploadURL : String := ""
  CompleteURL : String := ""
  FileImportResult : String := ""
deriving DecidableEq, Repr

/-- The part of `*http.Response` this client looks at: the status code and the
outcome of decoding the body as JSON into a `FileUpload`
(`json.NewDecoder(res.Body).Decode`, abstracted).  `Send` never reads
`bodyDecode`. -/
structure HttpResponse : Type where
  statusCode : Nat
  bodyDecode : Except GoError FileUpload
deriving DecidableEq, Repr

/-! ## The multipart body (`mime/multipart` writer, as used in Send) -/

/-- One part written into the multipart body: the form field name, the declared
filename (`some` for `CreateFormFile` parts, `none` for `WriteField` parts) and
the part's content bytes. -/
structure FormPart : Type where
  fieldName : String
  fileName : Option String
  content : List Nat
deriving DecidableEq, Repr

/-- Bytes of an ASCII string (all strings written into headers and text fields
here are ASCII, where UTF-8 bytes coincide with code points). -/
def strBytes (s : String) : List Nat :=
  s.data.map Char.toNat

/-- `writer.CreateFormFile(fieldname, filename)` followed by copying `content`
into the returned part writer (file_upload.go lines 126-132). -/
def CreateFormFile (fieldname filename : String) (content : List Nat) : FormPart :=
  ⟨fieldname, some filename, content⟩

/-- `writer.WriteField(fieldname, value)` (file_upload.go line 136): a text
field part whose content is the bytes of `value`. -/
def WriteField (fieldname value : String) : FormPart :=
  ⟨fieldname, none, strBytes value⟩

/-- The sequence of parts `Send` writes (file_upload.go lines 122-143): the
`"file"` part carrying `fileName` and the content bytes, then, only when
`partNumber` is non-nil, a `part_number` text field holding
`strconv.Itoa(*partNumber)`. -/
def sendParts (fileName : String) (content : List Nat) (partNumber : Option Int) : List FormPart :=
  [CreateFormFile "file" fileName content] ++
    match partNumber with
    | some p => [WriteField "part_number" (toString p)]
    | none => []

/-- Go `mime/multipart` `escapeQuotes`: backslash-escape `\` and `"` in header
parameter values. -/
def escapeQuotes (s : String) : String :=
  String.mk (s.data.foldr
    (fun c acc => if c = '\\' ∨ c = '\"' then '\\' :: c :: acc else c :: acc) [])

/-- The MIME header block `CreatePart` writes for a part (keys sorted, so
`Content-Disposition` before `Content-Type`), ending with the blank line.
`CreateFormFile` sets `Content-Type: application/octet-stream`;
`CreateFormField` sets only the disposition. -/
def partHeader (p : FormPart) : String :=
  "Content-Disposition: form-data; name=\"" ++ escapeQuotes p.fieldName ++ "\"" ++
    (match p.fileName with
     | some fn =>
       "; filename=\"" ++ escapeQuotes fn ++
         "\"\r\nContent-Type: application/octet-stream\r\n\r\n"
     | none => "\r\n\r\n")

/-- A rendered part: its header block followed by its content bytes. -/
def renderPart (p : FormPart) : List Nat :=
  strBytes (partHeader p) ++ p.content

/-- The byte stream `multipart.Writer` emits for the given parts and boundary:
`--boundary\r\n` before the first part, `\r\n--boundary\r\n` between parts, and
the closing `\r\n--boundary--\r\n` written by `writer.Close()`
(file_upload.go line 141).  With no parts, `Close` writes only
`--boundary--\r\n`. -/
def renderParts (boundary : String) (parts : List FormPart) : List Nat :=
  match parts with
  | [] => strBytes ("--" ++ boundary ++ "--\r\n")
  | ps =>
    strBytes ("--" ++ boundary ++ "\r\n") ++
      List.intercalate (strBytes ("\r\n--" ++ boundary ++ "\r\n")) (ps.map renderPart) ++
      strBytes ("\r\n--" ++ boundary ++ "--\r\n")

/-! ## The transport boundary -/

/-- Arguments `Create` hands to `apiClient.request` (file_upload.go line 96):
method, path, the JSON request body, and the content-type override (empty: the
transport defaults to `application/json`). -/
structure CreateArgs : Type where
  method : String
  path : String
  body : FileUploadCreateRequest
  contentTypeOverride : String
deriving DecidableEq, Repr

/-- Arguments `Send` hands to `apiClient.request` (file_upload.go line 147):
method, path, the rendered multipart body bytes, and the content-type
override. -/
structure SendArgs : Type where
  method : String
  path : String
  body : List Nat
  contentTypeOverride : String
deriving DecidableEq, Repr

/-- Modelled from the spec: the repository-wide constant `ContentTypeFormData`
(declared in the client file outside this subsystem) that `Send` passes as the
content-type override.  It is a package-level constant, fixed for the process:
its value does not depend on the multipart writer of any particular call. -/
def ContentTypeFormData : String := "multipart/form-data"

/-- `multipart.Writer.FormDataContentType()`: the boundary-bearing content-type
value the spec requires the caller to use verbatim as the request's
content-type override. -/
def FormDataContentType (boundary : String) : String :=
  "multipart/form-data; boundary=" ++ boundary

/-! ## Create -/

/-- The single transport invocation `Create` makes (file_upload.go line 96):
`POST file_uploads` with the JSON body and no content-type override. -/
def createArgs (requestBody : FileUploadCreateRequest) : CreateArgs :=
  ⟨"POST", "file_uploads", requestBody, ""⟩

/-- `handleFileUploadResponse` (file_upload.go lines 200-207): decode the body
into a `FileUpload`, wrapping a decode failure. -/
def handleFileUploadResponse (res : HttpResponse) : Except GoError FileUpload :=
  match res.bodyDecode with
  | .error e => .error (.wrapped "handleFileUploadResponse: failed to decode json" e)
  | .ok response => .ok response

/-- `FileUploadClient.Create` (file_upload.go lines 92-113).  Returns the Go
result together with the list of transport invocations made.  The code calls
`apiClient.request` unconditionally, propagates its error unchanged, rejects a
non-200 status, and otherwise decodes the body. -/
def Create (transport : CreateArgs → Except GoError HttpResponse)
    (requestBody : FileUploadCreateRequest) :
    Except GoError FileUpload × List CreateArgs :=
  let args := createArgs requestBody
  (match transport args with
   | .error e => .error e
   | .ok res =>
     if res.statusCode ≠ 200 then
       .error (.message ("FileUploadClient.Create: unexpected status code: " ++
         toString res.statusCode))
     else handleFileUploadResponse res,
   [args])

/-! ## Send -/

/-- The transport invocation `Send` makes when body construction succeeded
(file_upload.go lines 145-147): `POST file_uploads/{id}/send` with the rendered
multipart body and `ContentTypeFormData` as the content-type override. -/
def sendArgs (boundary : String) (id : FileUploadID) (fileName : String)
    (content : List Nat) (partNumber : Option Int) : SendArgs :=
  ⟨"POST", "file_uploads/" ++ id ++ "/send",
    renderParts boundary (sendParts fileName content partNumber),
    ContentTypeFormData⟩

/-- `FileUploadClient.Send` (file_upload.go lines 121-169).  `boundary` is the
writer's randomly chosen boundary; `file` is the reader's outcome (its full
content, or the read error that makes `io.Copy` fail at line 130, in which case
nothing is sent).  Returns the Go result together with the list of transport
invocations made.  A transport error is wrapped at line 149; a non-200 status
is rejected at line 158; on 200 the body is not read and `nil` is returned. -/
def Send (boundary : String) (id : FileUploadID) (file : Except GoError (List Nat))
    (fileName : String) (partNumber : Option Int)
    (transport : SendArgs → Except GoError HttpResponse) :
    Except GoError Unit × List SendArgs :=
  match file with
  | .error e =>
    (.error (.wrapped "FileUploadClient.Send: failed to copy file to form" e), [])
  | .ok content =>
    let args := sendArgs boundary id fileName content partNumber
    match transport args with
    | .error e => (.error (.wrapped "FileUploadClient.Send: request failed" e), [args])
    | .ok res =>
      if res.statusCode ≠ 200 then
        (.error (.message ("FileUploadClient.Send: unexpected status code: " ++
          toString res.statusCode)), [args])
      else (.ok (), [args])

/-! ## SendFileByPath -/

/-- The `os.FileInfo` data this code uses: `Name()`, the base name of the
file. -/
structure GoFileInfo : Type where
  name : String
deriving DecidableEq, Repr

/-- An opened `*os.File` as `SendFileByPath` consumes it: the outcome of
`file.Stat()` and the outcome of fully reading the file (the `io.Reader` handed
to `Send`). -/
structure OpenedFile : Type where
  statInfo : Except GoError GoFileInfo
  content : Except GoError (List Nat)

/-- `filepath.Base`-style base name: the final path element.  For a file opened
via `os.Open filePath`, the `os` contract makes `Stat().Name()` equal to this. -/
def baseName (p : String) : String :=
  String.mk ((p.data.splitOn '/').getLastD p.data)

/-- `FileUploadClient.SendFileByPath` (file_upload.go lines 213-234).  `fs` is
the filesystem: the outcome of `os.Open` per path.  An open or stat failure is
wrapped and returned with no transport invocation; otherwise the call delegates
to `Send` with the stat name as `fileName`. -/
def SendFileByPath (fs : String → Except GoError OpenedFile) (boundary : String)
    (id : FileUploadID) (filePath : String) (partNumber : Option Int)
    (transport : SendArgs → Except GoError HttpResponse) :
    Except GoError Unit × List SendArgs :=
  match fs filePath with
  | .error e =>
    (.error (.wrapped ("SendFileByPath: failed to open file " ++ filePath) e), [])
  | .ok file =>
    match file.statInfo with
    | .error e =>
      (.error (.wrapped ("SendFileByPath: failed to get file info for " ++ filePath) e), [])
    | .ok info => Send boundary id file.content info.name partNumber transport

/-! ## Claims -/

/-- The content-type override values handed to the transport by a concrete
`Send` call, as a function of the writer's boundary (all other inputs fixed).
Evaluates to `[ContentTypeFormData]`: the override does not depend on the
boundary. -/
def sendCallContentTypes (boundary : String) : List String :=
  ((Send boundary "fid" (.ok [42]) "a.txt" none
      (fun _ => .ok ⟨200, .error (.external "empty")⟩)).2).map SendArgs.contentTypeOverride

/-- Claim C1: the content-type override `Send` passes to the transport is the
fixed constant `ContentTypeFormData` for every writer boundary; that constant
is not the boundary-bearing value `FormDataContentType boundary`, and no single
constant can bear two distinct boundaries — so the header value does not carry
the boundary that frames the multipart body. -/
theorem send_contentType_does_not_carry_boundary :
    sendCallContentTypes "boundaryA" = [ContentTypeFormData] ∧
    sendCallContentTypes "boundaryB" = [ContentTypeFormData] ∧
    ContentTypeFormData ≠ FormDataContentType "boundaryA" ∧
    FormDataContentType "boundaryA" ≠ FormDataContentType "boundaryB" :=
  ⟨rfl, rfl, by decide, by decide⟩

/-- A `multi_part` create request with nil `NumberOfParts` (invalid per the
spec's `[1,1000]` requirement). -/
def multiPartNilPartsReq : FileUploadCreateRequest :=
  { Mode := FileUploadModeMultiPart, Filename := "big.bin", NumberOfParts := none }

/-- A record with `Status = "pending"`, as the service would return. -/
def pendingRecord : FileUpload := { Status := FileUploadStatusPending }

/-- A transport double that always answers 200 with a body decoding to
`pendingRecord`. -/
def okPendingTransport : CreateArgs → Except GoError HttpResponse :=
  fun _ => .ok ⟨200, .ok pendingRecord⟩

/-- Claim C2 (counterexample): a `multi_part` create request with
`NumberOfParts = nil` does not produce a local `ValidationError`: `Create`
invokes the transport (one recorded call) and, when the response is a decodable
200, even returns success. -/
theorem create_multiPart_nil_parts_counterexample :
    (Create okPendingTransport multiPartNilPartsReq).2 = [createArgs multiPartNilPartsReq] ∧
    (Create okPendingTransport multiPartNilPartsReq).1 = .ok pendingRecord :=
  ⟨rfl, rfl⟩

/-- Claim C2 (amended): `Create` performs no local validation of
`NumberOfParts`: for every `multi_part` request whose `NumberOfParts` is nil or
outside `[1,1000]`, it still invokes the transport exactly once, and the
outcome is determined by the response alone (a decodable 200 yields success). -/
theorem create_no_numberOfParts_validation
    (transport : CreateArgs → Except GoError HttpResponse)
    (requestBody : FileUploadCreateRequest)
    (_hm : requestBody.Mode = FileUploadModeMultiPart)
    (_hp : ∀ n, requestBody.NumberOfParts = some n → n < 1 ∨ 1000 < n) :
    (Create transport requestBody).2 = [createArgs requestBody] ∧
    ∀ record, transport (createArgs requestBody) = .ok ⟨200, .ok record⟩ →
      (Create transport requestBody).1 = .ok record := by
  refine ⟨rfl, ?_⟩
  intro record ht
  simp [Create, ht, handleFileUploadResponse]

/-- A `multi_part` create request with `NumberOfParts = 5000`, outside
`[1,1000]`. -/
def outOfRangePartsReq : FileUploadCreateRequest :=
  { Mode := FileUploadModeMultiPart, Filename := "big.bin", NumberOfParts := some 5000 }

/-- Witness for `create_no_numberOfParts_validation` at a concrete request with
`NumberOfParts = 5000`. -/
theorem create_no_numberOfParts_validation_witness :
    (Create okPendingTransport outOfRangePartsReq).1 = .ok pendingRecord :=
  (create_no_numberOfParts_validation _ _ rfl
      (fun n hn => by cases hn; exact Or.inr (by decide))).2 _ rfl

/-- A `multi_part` create request with empty `Filename` (invalid per the
spec). -/
def emptyFilenameMultiPartReq : FileUploadCreateRequest :=
  { Mode := FileUploadModeMultiPart, Filename := "", NumberOfParts := some 2 }

/-- An `external_url` create request with empty `ExternalURL` (invalid per the
spec). -/
def emptyUrlExternalReq : FileUploadCreateRequest :=
  { Mode := FileUploadModeExternalURL, ExternalURL := "" }

/-- Claim C3 (counterexample): a `multi_part` create request with empty
`Filename` and an `external_url` create request with empty `ExternalURL` both
reach the transport (one recorded call each) instead of failing locally; the
first even returns success when the response is a decodable 200. -/
theorem create_empty_filename_counterexample :
    (Create okPendingTransport emptyFilenameMultiPartReq).2 =
      [createArgs emptyFilenameMultiPartReq] ∧
    (Create okPendingTransport emptyUrlExternalReq).2 = [createArgs emptyUrlExternalReq] ∧
    (Create okPendingTransport emptyFilenameMultiPartReq).1 = .ok pendingRecord :=
  ⟨rfl, rfl, rfl⟩

/-- Claim C3 (amended): `Create` performs no local validation of `Filename` or
`ExternalURL`: for every request with mode `multi_part` and empty `Filename`,
or mode `external_url` and empty `ExternalURL`, it still invokes the transport
exactly once, and the outcome is determined by the response alone. -/
theorem create_no_filename_or_url_validation
    (transport : CreateArgs → Except GoError HttpResponse)
    (requestBody : FileUploadCreateRequest)
    (_h : (requestBody.Mode = FileUploadModeMultiPart ∧ requestBody.Filename = "") ∨
         (requestBody.Mode = FileUploadModeExternalURL ∧ requestBody.ExternalURL = "")) :
    (Create transport requestBody).2 = [createArgs requestBody] ∧
    ∀ record, transport (createArgs requestBody) = .ok ⟨200, .ok record⟩ →
      (Create transport requestBody).1 = .ok record := by
  refine ⟨rfl, ?_⟩
  intro record ht
  simp [Create, ht, handleFileUploadResponse]

/-- Witness for `create_no_filename_or_url_validation` at a concrete
`external_url` request with empty `ExternalURL`. -/
theorem create_no_filename_or_url_validation_witness :
    (Create okPendingTransport emptyUrlExternalReq).1 = .ok pendingRecord :=
  (create_no_filename_or_url_validation _ _ (Or.inr ⟨rfl, rfl⟩)).2 _ rfl

/-- Claim C4: the multipart body `Send` builds contains exactly one file part
(the part carrying a declared filename), with field name `"file"`, declared
filename `fileName` and content bytes exactly `B`; with `partNumber = 3` the
body is that file part followed by a `part_number` text field with value
`"3"`; with `partNumber = nil` there is no `part_number` field. -/
theorem send_multipart_body_structure (B : List Nat) (fileName : String) :
    ((sendParts fileName B (some 3)).filter (fun p => p.fileName.isSome) =
      [CreateFormFile "file" fileName B]) ∧
    (sendParts fileName B (some 3) =
      [CreateFormFile "file" fileName B, WriteField "part_number" "3"]) ∧
    ((sendParts fileName B none).filter (fun p => p.fieldName = "part_number") = []) ∧
    ((sendParts fileName B none).filter (fun p => p.fileName.isSome) =
      [CreateFormFile "file" fileName B]) :=
  ⟨rfl, rfl, rfl, rfl⟩

/-- Claim C5: `Send` returns `nil` exactly when the content stream was read
successfully (the only fallible step of body construction, since buffer writes
cannot fail), the transport call succeeded, and the status code is 200 — for
any response body, since `Send` never reads it; and when reading the content
stream fails, `Send` returns the wrapped copy error with an empty transport
trace (the transport is never invoked). -/
theorem send_ok_iff_built_and_status200 (boundary : String) (id : FileUploadID)
    (file : Except GoError (List Nat)) (fileName : String) (partNumber : Option Int)
    (transport : SendArgs → Except GoError HttpResponse) :
    ((Send boundary id file fileName partNumber transport).1 = .ok () ↔
      ∃ content res, file = .ok content ∧
        transport (sendArgs boundary id fileName content partNumber) = .ok res ∧
        res.statusCode = 200) ∧
    (∀ e, file = .error e →
      Send boundary id file fileName partNumber transport =
        (.error (.wrapped "FileUploadClient.Send: failed to copy file to form" e), [])) := by
  constructor
  · constructor
    · intro h
      match hf : file with
      | .error e => simp [Send] at h
      | .ok content =>
        cases ht : transport (sendArgs boundary id fileName content partNumber) with
        | error e => simp [Send, ht] at h
        | ok res =>
          by_cases hs : res.statusCode = 200
          · exact ⟨content, res, rfl, ht, hs⟩
          · simp [Send, ht, hs] at h
    · rintro ⟨content, res, rfl, ht, hs⟩
      simp [Send, ht, hs]
  · rintro e rfl
    rfl

/-- Witness for `send_ok_iff_built_and_status200`: a failing content reader
makes `Send` return the wrapped copy error without any transport call. -/
theorem send_ok_iff_built_and_status200_witness :
    Send "bnd" "fid" (.error (.external "read failed")) "a.txt" none
        (fun _ => .ok ⟨200, .error (.external "empty")⟩) =
      (.error (.wrapped "FileUploadClient.Send: failed to copy file to form"
        (.external "read failed")), []) :=
  (send_ok_iff_built_and_status200 "bnd" "fid" _ "a.txt" none _).2
    (.external "read failed") rfl

/-- Claim C6: given the transport's response, `Create` errors on every non-200
status, errors when a 200 body fails to decode as a `FileUpload` (wrapping the
decode error), and returns the decoded record on a decodable 200. -/
theorem create_response_handling
    (transport : CreateArgs → Except GoError HttpResponse)
    (requestBody : FileUploadCreateRequest) (res : HttpResponse)
    (ht : transport (createArgs requestBody) = .ok res) :
    (res.statusCode ≠ 200 →
      (Create transport requestBody).1 =
        .error (.message ("FileUploadClient.Create: unexpected status code: " ++
          toString res.statusCode))) ∧
    (∀ e, res.statusCode = 200 → res.bodyDecode = .error e →
      (Create transport requestBody).1 =
        .error (.wrapped "handleFileUploadResponse: failed to decode json" e)) ∧
    (∀ record, res.statusCode = 200 → res.bodyDecode = .ok record →
      (Create transport requestBody).1 = .ok record) := by
  refine ⟨?_, ?_, ?_⟩
  · intro hs
    simp [Create, ht, hs]
  · intro e hs hd
    simp [Create, ht, hs, handleFileUploadResponse, hd]
  · intro record hs hd
    simp [Create, ht, hs, handleFileUploadResponse, hd]

/-- Witness for `create_response_handling`: a 500 response makes `Create`
return the unexpected-status error. -/
theorem create_response_handling_witness :
    (Create (fun _ => .ok ⟨500, .error (.external "html error page")⟩)
        { Mode := FileUploadModeSinglePart }).1 =
      .error (.message "FileUploadClient.Create: unexpected status code: 500") :=
  (create_response_handling _ { Mode := FileUploadModeSinglePart }
      ⟨500, .error (.external "html error page")⟩ rfl).1 (by decide)

/-- A transport error, as a connectivity failure would surface it. -/
def refusedErr : GoError := .external "connection refused"

/-- Claim C7 (counterexample): when the transport fails, `Send` does not
propagate the transport error unchanged — it returns the error wrapped with
`"FileUploadClient.Send: request failed"`, a different error value. -/
theorem send_wraps_transport_error_counterexample :
    (Send "bnd" "fid" (.ok [1]) "a.txt" none (fun _ => .error refusedErr)).1 =
      .error (.wrapped "FileUploadClient.Send: request failed" refusedErr) ∧
    GoError.wrapped "FileUploadClient.Send: request failed" refusedErr ≠ refusedErr :=
  ⟨rfl, by decide⟩

/-- Claim C7 (amended): on a transport error, `Create` propagates the error
unchanged, while `Send` — and `SendFileByPath`, which delegates to it — wraps
it with the `"FileUploadClient.Send: request failed"` context, keeping the
original error as the cause; every operation makes at most one transport call
(no retry). -/
theorem transport_error_propagation
    (trC : CreateArgs → Except GoError HttpResponse)
    (trS : SendArgs → Except GoError HttpResponse)
    (requestBody : FileUploadCreateRequest) (boundary : String) (id : FileUploadID)
    (fileName : String) (content : List Nat) (partNumber : Option Int) (e : GoError)
    (fs : String → Except GoError OpenedFile) (filePath : String)
    (f : OpenedFile) (info : GoFileInfo) :
    (trC (createArgs requestBody) = .error e →
      Create trC requestBody = (.error e, [createArgs requestBody])) ∧
    (trS (sendArgs boundary id fileName content partNumber) = .error e →
      Send boundary id (.ok content) fileName partNumber trS =
        (.error (.wrapped "FileUploadClient.Send: request failed" e),
          [sendArgs boundary id fileName content partNumber])) ∧
    (fs filePath = .ok f → f.statInfo = .ok info → f.content = .ok content →
      trS (sendArgs boundary id info.name content partNumber) = .error e →
      SendFileByPath fs boundary id filePath partNumber trS =
        (.error (.wrapped "FileUploadClient.Send: request failed" e),
          [sendArgs boundary id info.name content partNumber])) := by
  refine ⟨?_, ?_, ?_⟩
  · intro ht
    simp [Create, ht]
  · intro ht
    simp [Send, ht]
  · intro hfs hst hc ht
    simp [SendFileByPath, hfs, hst, hc, Send, ht]

/-- Witness for `transport_error_propagation`: concrete failing transports for
a `Create` call and a `Send` call. -/
theorem transport_error_propagation_witness :
    Create (fun _ => .error refusedErr) { Mode := FileUploadModeSinglePart } =
      (.error refusedErr, [createArgs { Mode := FileUploadModeSinglePart }]) ∧
    Send "bnd" "fid" (.ok [1]) "a.txt" none (fun _ => .error refusedErr) =
      (.error (.wrapped "FileUploadClient.Send: request failed" refusedErr),
        [sendArgs "bnd" "fid" "a.txt" [1] none]) :=
  ⟨(transport_error_propagation (fun _ => .error refusedErr) (fun _ => .error refusedErr)
      { Mode := FileUploadModeSinglePart } "bnd" "fid" "a.txt" [1] none refusedErr
      (fun _ => .error (.external "unused")) "p" ⟨.ok ⟨"p"⟩, .ok [1]⟩ ⟨"p"⟩).1 rfl,
   (transport_error_propagation (fun _ => .error refusedErr) (fun _ => .error refusedErr)
      { Mode := FileUploadModeSinglePart } "bnd" "fid" "a.txt" [1] none refusedErr
      (fun _ => .error (.external "unused")) "p" ⟨.ok ⟨"p"⟩, .ok [1]⟩ ⟨"p"⟩).2.1 rfl⟩

/-- A record with `Status = "uploaded"`, as a service could report for an
already-transmitted upload. -/
def uploadedRecord : FileUpload := { Status := FileUploadStatusUploaded }

/-- Claim C8 (counterexample): a successful `Create` (status 200, body
decodes) can return a record whose `Status` is `"uploaded"`, not `"pending"`:
the client takes the decoded record as-is and never checks its status. -/
theorem create_status_not_pending_counterexample :
    (Create (fun _ => .ok ⟨200, .ok uploadedRecord⟩)
        { Mode := FileUploadModeSinglePart }).1 = .ok uploadedRecord ∧
    uploadedRecord.Status ≠ FileUploadStatusPending :=
  ⟨rfl, by decide⟩

/-- Claim C8 (amended): a successful `Create` returns the decoded record
verbatim — its `Status` (and every other field) is whatever the response body
carried; the client performs no check that it is `"pending"`. -/
theorem create_returns_decoded_record_verbatim
    (transport : CreateArgs → Except GoError HttpResponse)
    (requestBody : FileUploadCreateRequest) (record : FileUpload)
    (ht : transport (createArgs requestBody) = .ok ⟨200, .ok record⟩) :
    (Create transport requestBody).1 = .ok record := by
  simp [Create, ht, handleFileUploadResponse]

/-- Witness for `create_returns_decoded_record_verbatim` at a record whose
status is `"expired"`. -/
theorem create_returns_decoded_record_verbatim_witness :
    (Create (fun _ => .ok ⟨200, .ok { Status := FileUploadStatusExpired }⟩)
        { Mode := FileUploadModeSinglePart }).1 =
      .ok { Status := FileUploadStatusExpired } :=
  create_returns_decoded_record_verbatim _ _ _ rfl

/-- Claim C9: `SendFileByPath` wraps an open failure or a stat failure and
returns it without any transport invocation; otherwise it returns exactly
`Send` applied to the opened file's content and the stat name — which, by the
`os` contract that `Stat().Name()` is the base name of the opened path, is the
base name of `filePath`. -/
theorem sendFileByPath_delegates_to_send
    (fs : String → Except GoError OpenedFile) (boundary : String) (id : FileUploadID)
    (filePath : String) (partNumber : Option Int)
    (transport : SendArgs → Except GoError HttpResponse) :
    (∀ e, fs filePath = .error e →
      SendFileByPath fs boundary id filePath partNumber transport =
        (.error (.wrapped ("SendFileByPath: failed to open file " ++ filePath) e), [])) ∧
    (∀ f e, fs filePath = .ok f → f.statInfo = .error e →
      SendFileByPath fs boundary id filePath partNumber transport =
        (.error (.wrapped ("SendFileByPath: failed to get file info for " ++ filePath) e),
          [])) ∧
    (∀ f info, fs filePath = .ok f → f.statInfo = .ok info →
      SendFileByPath fs boundary id filePath partNumber transport =
        Send boundary id f.content info.name partNumber transport) ∧
    (∀ f info, fs filePath = .ok f → f.statInfo = .ok info →
      info.name = baseName filePath →
      SendFileByPath fs boundary id filePath partNumber transport =
        Send boundary id f.content (baseName filePath) partNumber transport) := by
  refine ⟨?_, ?_, ?_, ?_⟩
  · intro e hfs
    simp [SendFileByPath, hfs]
  · intro f e hfs hst
    simp [SendFileByPath, hfs, hst]
  · intro f info hfs hst
    simp [SendFileByPath, hfs, hst]
  · intro f info hfs hst hname
    simp [SendFileByPath, hfs, hst, hname]

/-- Witness for `sendFileByPath_delegates_to_send`: a concrete filesystem with
one file at `"dir/a.txt"` whose stat name is its base name `"a.txt"`. -/
theorem sendFileByPath_delegates_to_send_witness :
    SendFileByPath (fun _ => .ok ⟨.ok ⟨"a.txt"⟩, .ok [7, 8]⟩) "bnd" "fid" "dir/a.txt" none
        (fun _ => .ok ⟨200, .error (.external "empty")⟩) =
      Send "bnd" "fid" (.ok [7, 8]) (baseName "dir/a.txt") none
        (fun _ => .ok ⟨200, .error (.external "empty")⟩) :=
  (sendFileByPath_delegates_to_send (fun _ => .ok ⟨.ok ⟨"a.txt"⟩, .ok [7, 8]⟩) "bnd" "fid"
      "dir/a.txt" none (fun _ => .ok ⟨200, .error (.external "empty")⟩)).2.2.2
    ⟨.ok ⟨"a.txt"⟩, .ok [7, 8]⟩ ⟨"a.txt"⟩ rfl rfl (by decide)

/-- Claim C10: `Send` never validates `partNumber`: for every non-nil integer
`p` — zero and negative included — the body's parts are the file part followed
by a `part_number` field holding the decimal string of `p` (`strconv.Itoa`),
the transport is invoked with exactly that body, and a 200 response yields
success, so no local failure is caused by `p`'s value. -/
theorem send_does_not_validate_partNumber (p : Int) (content : List Nat)
    (fileName : String) (boundary : String) (id : FileUploadID)
    (transport : SendArgs → Except GoError HttpResponse) :
    (sendParts fileName content (some p) =
      [CreateFormFile "file" fileName content,
        WriteField "part_number" (toString p)]) ∧
    ((Send boundary id (.ok content) fileName (some p) transport).2 =
      [sendArgs boundary id fileName content (some p)]) ∧
    (∀ res, transport (sendArgs boundary id fileName content (some p)) = .ok res →
      res.statusCode = 200 →
      (Send boundary id (.ok content) fileName (some p) transport).1 = .ok ()) := by
  refine ⟨rfl, ?_, ?_⟩
  · cases ht : transport (sendArgs boundary id fileName content (some p)) with
    | error e => simp [Send, ht]
    | ok res =>
      by_cases hs : res.statusCode = 200
      · simp [Send, ht, hs]
      · simp [Send, ht, hs]
  · intro res ht hs
    simp [Send, ht, hs]

/-- Witness for `send_does_not_validate_partNumber` at the negative part
number `-7`. -/
theorem send_does_not_validate_partNumber_witness :
    (Send "bnd" "fid" (.ok [9]) "a.bin" (some (-7))
        (fun _ => .ok ⟨200, .error (.external "empty")⟩)).1 = .ok () :=
  (send_does_not_validate_partNumber (-7) [9] "a.bin" "bnd" "fid"
      (fun _ => .ok ⟨200, .error (.external "empty")⟩)).2.2 _ rfl rfl
